import Mathlib

/-!
Verification of the session-authentication core of `next-auth-example`.

The repository is a Next.js demo with three API routes backed by a single
hard-coded in-memory user record:

* `src/util/fakeDb.ts` — `fakeDb(id)` resolves the record when `id` equals the
  user's `id`, `username` or `email`, or equals a stored token whose expiry is
  strictly in the future; otherwise it rejects.
* `src/util/sanitizeUser.ts` — returns a copy of the user with `password` set
  to the empty string and `tokens` set to the empty list.
* the login route — parses the request body, looks the identifier up through
  `fakeDb`, checks the password with bcrypt's `compareSync`, and on success
  returns `{ user: sanitizeUser(user), token: user.tokens[0] }`.
* `src/pages/api/auth/me.ts` — reads the auth cookie, checks its shape and its
  expiry field, then resolves the token through `fakeDb` and returns the
  sanitized user.
* `src/pages/api/auth/logout.ts` — schedules a response inside `setTimeout`
  and returns nothing; it performs no store mutation.

Modelling conventions: dates (ISO strings compared through `new Date`) are
modelled as `Int` timestamps; each request sees a single time value `now`.
The bcrypt comparator is a black box and is passed as a parameter
`compare : String → String → Bool`.  The JSON user object that the handlers
serialize is modelled with one `Option` per key so that a present-but-empty
field is distinguishable from an absent field.  The module-level expiry of the
seeded token (`today + 30 days` at load time) is the parameter `seedExp`.
-/

/-- A stored login token: `{token, expires}` from `src/interfaces.ts`,
with the ISO date string modelled as an `Int` timestamp. -/
structure LoginToken where
  token : String
  expires : Int
deriving DecidableEq, Repr

/-- The `User` interface from `src/interfaces.ts`. -/
structure User where
  id : String
  fullName : String
  email : String
  username : String
  password : String
  tokens : List LoginToken
deriving DecidableEq, Repr

/-- The seeded token string hard-coded in `src/util/fakeDb.ts`. -/
def seedToken : String :=
  "7XOOBmzLlLlc7fZOk7KyuVFvxnSooVHNV7N4Yh7cdc4NP5bLZZaPMtDV7jPKxHp3HZ51Kh64W4d6wcAuJvHoqhg3TWHaV18zI2szBDLAiwKVEVtRqMeHHn8z3HbpYg5z"

/-- The module-level `userData` record of `src/util/fakeDb.ts`.  Its single
token expires at `seedExp`, which in the source is the module-load time plus
30 days. -/
def userData (seedExp : Int) : User :=
  { id := "szbxTRMAbSaCMxdmk7AMbIfSCO"
    fullName := "Joe Blow"
    email := "joeblow@example.com"
    username := "joeblow"
    password := "$2a$12$PUnDAFhNom/em/8nYc4kdOvEgUpYSA2aTcJ0B83qR0LQvG55.Z/de"
    tokens := [⟨seedToken, seedExp⟩] }

/-- `fakeDb` generalized over the stored record: resolves (`some`) when `id`
equals the record's `id`, `username` or `email`, or matches a stored token
whose `expires` is strictly after `now` (`new Date(token.expires) > new
Date()` in the source); otherwise it rejects (`none`). -/
def fakeDbWith (db : User) (id : String) (now : Int) : Option User :=
  if id = db.id ∨ id = db.username ∨ id = db.email ∨
      ∃ t ∈ db.tokens, t.token = id ∧ now < t.expires
  then some db else none

/-- `fakeDb` from `src/util/fakeDb.ts`, closed over the seeded `userData`. -/
def fakeDb (seedExp : Int) (id : String) (now : Int) : Option User :=
  fakeDbWith (userData seedExp) id now

/-- `sanitizeUser` from `src/util/sanitizeUser.ts`: the object spread keeps
every key and overwrites `password` with `''` and `tokens` with `[]`. -/
def sanitizeUser (u : User) : User :=
  { u with password := "", tokens := [] }

/-- The JSON serialization of a `User` object, one `Option` per key: `some`
means the key is present in the serialized object.  `JSON.stringify` of a
full `User` keeps every key, so every field is `some`. -/
structure UserJson where
  id : Option String
  fullName : Option String
  email : Option String
  username : Option String
  password : Option String
  tokens : Option (List LoginToken)
deriving DecidableEq, Repr

/-- `JSON.stringify` of a full `User` object: all six keys present. -/
def userToJson (u : User) : UserJson :=
  ⟨some u.id, some u.fullName, some u.email, some u.username,
    some u.password, some u.tokens⟩

/-- The request body of the login route, `{username, password}`
(`LoginProps` in `src/interfaces.ts`). -/
structure LoginProps where
  username : String
  password : String
deriving DecidableEq, Repr

/-- Responses of the login route: 200 with `{user, token}` (the token key is
dropped by `JSON.stringify` when `user.tokens[0]` is `undefined`, hence the
`Option`), 401 `Unauthorized`, or 500 from the outer `catch`. -/
inductive LoginResp where
  | ok (user : UserJson) (token : Option LoginToken)
  | unauthorized
  | serverError
deriving DecidableEq, Repr

/-- The login route handler.  `body = none` models `request.json()` throwing
(caught by the outer `try`, producing a 500); `compare` is bcrypt's
`compareSync`. -/
def loginHandler (compare : String → String → Bool) (seedExp : Int)
    (body : Option LoginProps) (now : Int) : LoginResp :=
  match body with
  | none => .serverError
  | some data =>
    match fakeDb seedExp data.username now with
    | none => .unauthorized
    | some user =>
      if compare data.password user.password
      then .ok (userToJson (sanitizeUser user)) user.tokens.head?
      else .unauthorized

/-- The token object carried inside the auth cookie, after `JSON.parse`:
`token` is the token string (`""` is falsy in `!cookieData.token.token`), and
`expires` is the parsed date (`none` models an absent or falsy field). -/
structure CookieTok where
  token : String
  expires : Option Int
deriving DecidableEq, Repr

/-- The state of the auth cookie as seen by the `me` handler: absent under the
configured key, present but failing `JSON.parse`, or parsed with an optional
`token` member (`none` models `!cookieData.token` being falsy). -/
inductive CookieState where
  | absent
  | malformed
  | parsed (tok : Option CookieTok)
deriving DecidableEq, Repr

/-- Responses of the `me` route: 200 with the sanitized user, 401, or 500
(the `JSON.parse` exception reaching the outer `catch`). -/
inductive MeResp where
  | ok (user : UserJson)
  | unauthorized
  | serverError
deriving DecidableEq, Repr

/-- The `me` handler (`src/pages/api/auth/me.ts`) generalized over the stored
record, following the source's check order: missing cookie → 401; malformed
cookie JSON → the exception escapes to the outer `catch` → 500; falsy
`cookieData.token`, `cookieData.token.token` or `cookieData.token.expires` →
401; cookie expiry strictly before `now` → 401; then `fakeDb` on the token
(rejection → 401), and finally 200 with the sanitized user. -/
def meHandlerWith (db : User) (cookie : CookieState) (now : Int) : MeResp :=
  match cookie with
  | .absent => .unauthorized
  | .malformed => .serverError
  | .parsed none => .unauthorized
  | .parsed (some tf) =>
    if tf.token = "" then .unauthorized
    else
      match tf.expires with
      | none => .unauthorized
      | some e =>
        if e < now then .unauthorized
        else
          match fakeDbWith db tf.token now with
          | none => .unauthorized
          | some user => .ok (userToJson (sanitizeUser user))

/-- The `me` handler closed over the seeded `userData`. -/
def meHandler (seedExp : Int) (cookie : CookieState) (now : Int) : MeResp :=
  meHandlerWith (userData seedExp) cookie now

/-- The `me` handler with the server-side store made explicit: the source
never writes to the module-level `userData`, so the store component of the
result is the input store unchanged. -/
def meHandlerSt (db : User) (cookie : CookieState) (now : Int) : User × MeResp :=
  (db, meHandlerWith db cookie now)

/-- The logout handler (`src/pages/api/auth/logout.ts`): it schedules a
`Response` inside `setTimeout` and returns `undefined`, mutating nothing —
modelled as the unchanged store and no response. -/
def logoutHandlerSt (db : User) : User × Option MeResp :=
  (db, none)

/-- The `password` key of the user object inside a login response body:
`none` when the response is not a 200, otherwise `some` of the serialized
user's `password` field (`some ""` = key present with the empty string,
`none` inside = key absent). -/
def LoginResp.userPasswordField : LoginResp → Option (Option String)
  | .ok u _ => some u.password
  | _ => none

/-- The `tokens` key of the user object inside a login response body. -/
def LoginResp.userTokensField : LoginResp → Option (Option (List LoginToken))
  | .ok u _ => some u.tokens
  | _ => none

/-- Modelled from the spec: a `Session` record of the Token Store (§3) —
`token`, `userId`, `issuedAt`, `expiresAt`.  The repository has no refresh
endpoint or token store; `refresh` exists only in the specification. -/
structure Session where
  token : String
  userId : String
  issuedAt : Int
  expiresAt : Int
deriving DecidableEq, Repr

/-- Modelled from the spec: the Token Store's primary mapping
`token -> Session` (§4.2), as an association list. -/
abbrev TokenStore := List Session

/-- Modelled from the spec: `get(token)` — lookup, no side effects (§4.2). -/
def TokenStore.get (store : TokenStore) (t : String) : Option Session :=
  store.find? (fun s => s.token = t)

/-- Modelled from the spec: `delete(token)` — removes the token's entry,
no-op if absent (§4.2). -/
def TokenStore.delete (store : TokenStore) (t : String) : TokenStore :=
  store.filter (fun s => ¬ s.token = t)

/-- Modelled from the spec: the error taxonomy of §7 relevant to the
session-lifecycle operations. -/
inductive AuthError where
  | tokenNotFound
  | tokenExpired
deriving DecidableEq, Repr

/-- Modelled from the spec: `validate(token)` (§4.3) — `TokenNotFound` if the
token is absent, `TokenExpired` (with eviction of the entry) if
`now >= expiresAt`, otherwise the session's user id. -/
def specValidate (store : TokenStore) (t : String) (now : Int) :
    Except AuthError String × TokenStore :=
  match store.get t with
  | none => (.error .tokenNotFound, store)
  | some s =>
    if s.expiresAt ≤ now then (.error .tokenExpired, store.delete t)
    else (.ok s.userId, store)

/-- Modelled from the spec: `refresh(token)` (§4.3) — validates the existing
token with the same failure modes as `validate`, then atomically replaces it:
deletes the old token and stores a new session with the fresh token `t2` and
extended expiry `now + ttl`, preserving `userId`. -/
def specRefresh (store : TokenStore) (t t2 : String) (now ttl : Int) :
    Except AuthError String × TokenStore :=
  match store.get t with
  | none => (.error .tokenNotFound, store)
  | some s =>
    if s.expiresAt ≤ now then (.error .tokenExpired, store.delete t)
    else (.ok t2, store.delete t ++ [⟨t2, s.userId, now, now + ttl⟩])

/-! ### Helper lemmas -/

/-- `fakeDb` resolves any of the three identity fields, at any time. -/
theorem fakeDb_ident (seedExp : Int) (ident : String) (now : Int)
    (hid : ident = (userData seedExp).id ∨ ident = (userData seedExp).username ∨
      ident = (userData seedExp).email) :
    fakeDb seedExp ident now = some (userData seedExp) := by
  unfold fakeDb fakeDbWith
  rw [if_pos]
  rcases hid with h | h | h
  · exact Or.inl h
  · exact Or.inr (Or.inl h)
  · exact Or.inr (Or.inr (Or.inl h))

/-- `fakeDb` resolves the seeded token while it is strictly unexpired. -/
theorem fakeDb_seedToken_live (seedExp now : Int) (hlive : now < seedExp) :
    fakeDb seedExp seedToken now = some (userData seedExp) := by
  unfold fakeDb fakeDbWith
  rw [if_pos]
  exact Or.inr (Or.inr (Or.inr ⟨⟨seedToken, seedExp⟩, by simp [userData], rfl, hlive⟩))

/-- Once the seeded token has expired (`seedExp ≤ now`), `fakeDb` rejects it:
it matches none of the identity fields and fails the strict expiry check. -/
theorem fakeDb_seedToken_expired (seedExp now : Int) (h : seedExp ≤ now) :
    fakeDb seedExp seedToken now = none := by
  unfold fakeDb fakeDbWith
  rw [if_neg]
  rintro (hc | hc | hc | ⟨t, ht, htok, hlt⟩)
  · simp only [userData] at hc
    exact absurd hc (by decide)
  · simp only [userData] at hc
    exact absurd hc (by decide)
  · simp only [userData] at hc
    exact absurd hc (by decide)
  · simp only [userData, List.mem_singleton] at ht
    subst ht
    have hlt2 : now < seedExp := hlt
    omega

/-- Whenever `fakeDb` resolves, the record it returns is the seeded user. -/
theorem fakeDb_eq_some (seedExp : Int) (ident : String) (now : Int) (u : User)
    (h : fakeDb seedExp ident now = some u) : u = userData seedExp := by
  unfold fakeDb fakeDbWith at h
  by_cases hc : ident = (userData seedExp).id ∨ ident = (userData seedExp).username ∨
      ident = (userData seedExp).email ∨
      ∃ t ∈ (userData seedExp).tokens, t.token = ident ∧ now < t.expires
  · rw [if_pos hc] at h
    exact (Option.some_injective _ h).symm
  · rw [if_neg hc] at h
    exact Option.noConfusion h

/-- An identifier equal to none of the three identity fields and different
from the seeded token string makes `fakeDb` reject, at every time. -/
theorem fakeDb_unknown (seedExp : Int) (ident : String) (now : Int)
    (hid : ident ≠ (userData seedExp).id) (hun : ident ≠ (userData seedExp).username)
    (hem : ident ≠ (userData seedExp).email) (htok : ident ≠ seedToken) :
    fakeDb seedExp ident now = none := by
  unfold fakeDb fakeDbWith
  rw [if_neg]
  rintro (hc | hc | hc | ⟨t, ht, htok2, hlt⟩)
  · exact hid hc
  · exact hun hc
  · exact hem hc
  · simp only [userData, List.mem_singleton] at ht
    subst ht
    exact htok htok2.symm

/-- Whenever the generalized `fakeDbWith` resolves, the record it returns is
the stored record itself. -/
theorem fakeDbWith_eq_some (db : User) (ident : String) (now : Int) (u : User)
    (h : fakeDbWith db ident now = some u) : u = db := by
  unfold fakeDbWith at h
  by_cases hc : ident = db.id ∨ ident = db.username ∨ ident = db.email ∨
      ∃ t ∈ db.tokens, t.token = ident ∧ now < t.expires
  · rw [if_pos hc] at h
    exact (Option.some_injective _ h).symm
  · rw [if_neg hc] at h
    exact Option.noConfusion h

/-- A 200 answer of the `me` handler always carries the sanitized stored
record as its body. -/
theorem meHandlerWith_ok (db : User) (cookie : CookieState) (now : Int) (u : UserJson)
    (h : meHandlerWith db cookie now = .ok u) :
    u = userToJson (sanitizeUser db) := by
  unfold meHandlerWith at h
  cases cookie with
  | absent => exact MeResp.noConfusion h
  | malformed => exact MeResp.noConfusion h
  | parsed tok =>
    cases tok with
    | none => exact MeResp.noConfusion h
    | some tf =>
      simp only at h
      by_cases h1 : tf.token = ""
      · rw [if_pos h1] at h
        exact MeResp.noConfusion h
      · rw [if_neg h1] at h
        cases he : tf.expires with
        | none => rw [he] at h; exact MeResp.noConfusion h
        | some e =>
          rw [he] at h
          simp only at h
          by_cases h2 : e < now
          · rw [if_pos h2] at h
            exact MeResp.noConfusion h
          · rw [if_neg h2] at h
            cases hdb : fakeDbWith db tf.token now with
            | none =>
              simp only [hdb] at h
              exact MeResp.noConfusion h
            | some user =>
              simp only [hdb] at h
              injection h with h3
              rw [← h3, fakeDbWith_eq_some db tf.token now user hdb]

/-- The `me` handler answers 401 for a cookie carrying the seeded token once
the seeded session has reached its expiry, for every cookie-expiry value. -/
theorem me_seedToken_expired_aux (seedExp ce now : Int) (h : seedExp ≤ now) :
    meHandler seedExp (.parsed (some ⟨seedToken, some ce⟩)) now = .unauthorized := by
  unfold meHandler meHandlerWith
  dsimp only
  rw [if_neg (show ¬ (seedToken = "") by decide)]
  by_cases hce : ce < now
  · rw [if_pos hce]
  · rw [if_neg hce]
    have hdb : fakeDbWith (userData seedExp) seedToken now = none :=
      fakeDb_seedToken_expired seedExp now h
    simp only [hdb]

/-- A successful login response always carries the head of the seeded token
list as its token and the sanitized seeded user as its user object. -/
theorem loginHandler_ok (compare : String → String → Bool) (seedExp : Int)
    (body : Option LoginProps) (now : Int) (u : UserJson) (tok : Option LoginToken)
    (h : loginHandler compare seedExp body now = .ok u tok) :
    u = userToJson (sanitizeUser (userData seedExp)) ∧ tok = some ⟨seedToken, seedExp⟩ := by
  cases body with
  | none => exact LoginResp.noConfusion h
  | some data =>
    unfold loginHandler at h
    cases hdb : fakeDb seedExp data.username now with
    | none =>
      simp only [hdb] at h
      exact LoginResp.noConfusion h
    | some user =>
      simp only [hdb] at h
      have huser := fakeDb_eq_some seedExp data.username now user hdb
      subst huser
      by_cases hcmp : compare data.password (userData seedExp).password = true
      · rw [if_pos hcmp] at h
        injection h with h1 h2
        exact ⟨h1.symm, h2.symm⟩
      · rw [if_neg hcmp] at h
        exact LoginResp.noConfusion h

/-! ### Claim theorems -/

/-- C1: for the stored user and any identifier/password pair matching that
user's credentials (identifier equal to the stored id, username or email, and
a password the black-box bcrypt comparator accepts against the stored
digest), login succeeds with the seeded token and the sanitized user, and a
`/api/auth/me` call carrying that token in the cookie at any time strictly
before its expiry returns the same user object. -/
theorem c1_login_then_validate_same_user
    (compare : String → String → Bool) (seedExp : Int) (ident pw : String)
    (now0 now1 : Int)
    (hid : ident = (userData seedExp).id ∨ ident = (userData seedExp).username ∨
      ident = (userData seedExp).email)
    (hpw : compare pw (userData seedExp).password = true)
    (hlive : now1 < seedExp) :
    loginHandler compare seedExp (some ⟨ident, pw⟩) now0
        = .ok (userToJson (sanitizeUser (userData seedExp))) (some ⟨seedToken, seedExp⟩) ∧
      meHandler seedExp (.parsed (some ⟨seedToken, some seedExp⟩)) now1
        = .ok (userToJson (sanitizeUser (userData seedExp))) := by
  constructor
  · unfold loginHandler
    dsimp only
    simp only [fakeDb_ident seedExp ident now0 hid, hpw, if_true]
    rfl
  · unfold meHandler meHandlerWith
    dsimp only
    rw [if_neg (show ¬ (seedToken = "") by decide)]
    rw [if_neg (show ¬ (seedExp < now1) by omega)]
    have hdb : fakeDbWith (userData seedExp) seedToken now1 = some (userData seedExp) :=
      fakeDb_seedToken_live seedExp now1 hlive
    simp only [hdb]

/-- C1 witness: a concrete accepted login (identifier `joeblow`, comparator
accepting everything) followed by a concrete validation before expiry. -/
theorem c1_witness :
    loginHandler (fun _ _ => true) 1 (some ⟨"joeblow", "TestPassword4$"⟩) 0
        = .ok (userToJson (sanitizeUser (userData 1))) (some ⟨seedToken, 1⟩) ∧
      meHandler 1 (.parsed (some ⟨seedToken, some 1⟩)) 0
        = .ok (userToJson (sanitizeUser (userData 1))) :=
  c1_login_then_validate_same_user (fun _ _ => true) 1 "joeblow" "TestPassword4$" 0 0
    (Or.inr (Or.inl rfl)) rfl (by decide)

/-- C4: a `/api/auth/me` call whose cookie carries the seeded token once the
session has reached its expiry (`seedExp ≤ now`, including the boundary
`now = seedExp`) is rejected with 401, for every cookie-expiry field value:
the handler's own check catches a stale cookie date, and at the boundary the
strict `>` inside `fakeDb` rejects the token. -/
theorem c4_expired_token_unauthorized (seedExp ce now : Int) (h : seedExp ≤ now) :
    meHandler seedExp (.parsed (some ⟨seedToken, some ce⟩)) now = .unauthorized :=
  me_seedToken_expired_aux seedExp ce now h

/-- C4 witness: the boundary case `now = expiresAt` on concrete data. -/
theorem c4_witness :
    meHandler 5 (.parsed (some ⟨seedToken, some 5⟩)) 5 = .unauthorized :=
  c4_expired_token_unauthorized 5 5 5 (by decide)

/-- C6: when the black-box password comparator rejects the supplied password
against the stored digest, login answers 401 and returns neither a token nor
a user, even though the identifier resolved to the stored user. -/
theorem c6_wrong_password_unauthorized
    (compare : String → String → Bool) (seedExp : Int) (ident pw : String) (now : Int)
    (hfound : (fakeDb seedExp ident now).isSome = true)
    (hpw : compare pw (userData seedExp).password = false) :
    loginHandler compare seedExp (some ⟨ident, pw⟩) now = .unauthorized := by
  unfold loginHandler
  dsimp only
  cases hdb : fakeDb seedExp ident now with
  | none => simp only [hdb]
  | some user =>
    have huser := fakeDb_eq_some seedExp ident now user hdb
    subst huser
    simp only [hdb]
    rw [if_neg (show ¬ (compare pw (userData seedExp).password = true) by simp [hpw])]

/-- C6 witness: a comparator rejecting everything, identifier `joeblow`. -/
theorem c6_witness :
    loginHandler (fun _ _ => false) 1 (some ⟨"joeblow", "wrong"⟩) 0 = .unauthorized :=
  c6_wrong_password_unauthorized (fun _ _ => false) 1 "joeblow" "wrong" 0 (by decide) rfl

/-- C7: any two successful login calls — whatever their request bodies,
comparators and times — return the identical token, namely the single
pre-seeded token (the head of the stored token list); no fresh token is ever
minted. -/
theorem c7_logins_return_same_seeded_token
    (compare1 compare2 : String → String → Bool) (seedExp : Int)
    (body1 body2 : Option LoginProps) (now1 now2 : Int)
    (u1 u2 : UserJson) (tok1 tok2 : Option LoginToken)
    (h1 : loginHandler compare1 seedExp body1 now1 = .ok u1 tok1)
    (h2 : loginHandler compare2 seedExp body2 now2 = .ok u2 tok2) :
    tok1 = tok2 ∧ tok1 = some ⟨seedToken, seedExp⟩ ∧
      tok1 = (userData seedExp).tokens.head? := by
  have e1 := (loginHandler_ok compare1 seedExp body1 now1 u1 tok1 h1).2
  have e2 := (loginHandler_ok compare2 seedExp body2 now2 u2 tok2 h2).2
  exact ⟨e1.trans e2.symm, e1, e1⟩

/-- C7 witness: two concrete successful logins (one by username, one by
email) both returning the seeded token. -/
theorem c7_witness :
    some (⟨seedToken, 1⟩ : LoginToken) = some (⟨seedToken, 1⟩ : LoginToken) ∧
      some (⟨seedToken, 1⟩ : LoginToken) = some (⟨seedToken, 1⟩ : LoginToken) ∧
      some (⟨seedToken, 1⟩ : LoginToken) = (userData 1).tokens.head? :=
  c7_logins_return_same_seeded_token (fun _ _ => true) (fun _ _ => true) 1
    (some ⟨"joeblow", "a"⟩) (some ⟨"joeblow@example.com", "b"⟩) 0 0
    (userToJson (sanitizeUser (userData 1))) (userToJson (sanitizeUser (userData 1)))
    (some ⟨seedToken, 1⟩) (some ⟨seedToken, 1⟩) (by decide) (by decide)

/-- C2 counterexample: in the concrete successful login of the spec's
scenario, the `password` key of the returned user object is present and maps
to the empty string — not absent as the claim states — and the `tokens` key
is likewise present with an empty list: `sanitizeUser` empties the fields
rather than removing them. -/
theorem c2_counterexample :
    LoginResp.userPasswordField
        (loginHandler (fun _ _ => true) 1 (some ⟨"joeblow", "TestPassword4$"⟩) 0)
      = some (some "") ∧
    LoginResp.userPasswordField
        (loginHandler (fun _ _ => true) 1 (some ⟨"joeblow", "TestPassword4$"⟩) 0)
      ≠ some none ∧
    LoginResp.userTokensField
        (loginHandler (fun _ _ => true) 1 (some ⟨"joeblow", "TestPassword4$"⟩) 0)
      = some (some ([] : List LoginToken)) := by
  decide

/-- C2 amended: every user object returned by a 200 answer of login or
`/api/auth/me` carries the `password` key with the empty string and the
`tokens` key with the empty list — present but emptied, so no response ever
contains the stored digest or any stored session token inside the user
object. -/
theorem c2_sanitized_fields_emptied
    (compare : String → String → Bool) (seedExp : Int) (body : Option LoginProps)
    (now0 : Int) (cookie : CookieState) (now1 : Int) :
    (∀ u tok, loginHandler compare seedExp body now0 = .ok u tok →
      u.password = some "" ∧ u.tokens = some ([] : List LoginToken)) ∧
    (∀ u, meHandler seedExp cookie now1 = .ok u →
      u.password = some "" ∧ u.tokens = some ([] : List LoginToken)) := by
  constructor
  · intro u tok h
    have := (loginHandler_ok compare seedExp body now0 u tok h).1
    subst this
    exact ⟨rfl, rfl⟩
  · intro u h
    have := meHandlerWith_ok (userData seedExp) cookie now1 u h
    subst this
    exact ⟨rfl, rfl⟩

/-- C2 witness: the amended redaction invariant applied to a concrete
successful login. -/
theorem c2_witness :
    (userToJson (sanitizeUser (userData 1))).password = some "" ∧
      (userToJson (sanitizeUser (userData 1))).tokens = some ([] : List LoginToken) :=
  (c2_sanitized_fields_emptied (fun _ _ => true) 1 (some ⟨"joeblow", "TestPassword4$"⟩) 0
      .absent 0).1
    (userToJson (sanitizeUser (userData 1))) (some ⟨seedToken, 1⟩) (by decide)

/-- C3 counterexample: the lookup also succeeds on an identifier that matches
none of `id`, `username`, `email` — the seeded token string itself resolves
while unexpired, so "succeeds only on the three identity fields" is false. -/
theorem c3_counterexample :
    fakeDb 1 seedToken 0 = some (userData 1) ∧
      seedToken ≠ (userData 1).id ∧ seedToken ≠ (userData 1).username ∧
      seedToken ≠ (userData 1).email := by
  decide

/-- C3 amended: the lookup succeeds exactly when the identifier is a
case-sensitive exact match of the stored id, username or email, or equals a
stored session token whose expiry is strictly in the future; every other
identifier is rejected. -/
theorem c3_lookup_characterization (seedExp : Int) (ident : String) (now : Int) :
    (fakeDb seedExp ident now).isSome = true ↔
      ident = "szbxTRMAbSaCMxdmk7AMbIfSCO" ∨ ident = "joeblow" ∨
      ident = "joeblow@example.com" ∨ (seedToken = ident ∧ now < seedExp) := by
  unfold fakeDb fakeDbWith
  split
  · next hc =>
    simp only [Option.isSome_some, true_iff]
    rcases hc with hc | hc | hc | ⟨t, ht, htok, hlt⟩
    · exact Or.inl hc
    · exact Or.inr (Or.inl hc)
    · exact Or.inr (Or.inr (Or.inl hc))
    · simp only [userData, List.mem_singleton] at ht
      subst ht
      exact Or.inr (Or.inr (Or.inr ⟨htok, hlt⟩))
  · next hc =>
    simp only [Option.isSome_none, Bool.false_eq_true, false_iff]
    rintro (hr | hr | hr | ⟨htok, hlt⟩)
    · exact hc (Or.inl hr)
    · exact hc (Or.inr (Or.inl hr))
    · exact hc (Or.inr (Or.inr (Or.inl hr)))
    · exact hc (Or.inr (Or.inr (Or.inr
        ⟨⟨seedToken, seedExp⟩, by simp [userData], htok, hlt⟩)))

/-- C10: an auth cookie that is present but fails `JSON.parse` makes the `me`
handler answer 500 (the exception reaches the outer `catch`), while every
other invalid-cookie shape — missing cookie, missing `token` member, falsy
token string, missing `expires`, expired seeded token, unknown token — is
answered 401. -/
theorem c10_malformed_cookie_server_error
    (seedExp now ce : Int) (t : String)
    (hid : t ≠ (userData seedExp).id) (hun : t ≠ (userData seedExp).username)
    (hem : t ≠ (userData seedExp).email) (htok : t ≠ seedToken)
    (hexp : seedExp ≤ now) (hce : ¬ ce < now) :
    meHandler seedExp .malformed now = .serverError ∧
    meHandler seedExp .absent now = .unauthorized ∧
    meHandler seedExp (.parsed none) now = .unauthorized ∧
    meHandler seedExp (.parsed (some ⟨"", some ce⟩)) now = .unauthorized ∧
    meHandler seedExp (.parsed (some ⟨t, none⟩)) now = .unauthorized ∧
    meHandler seedExp (.parsed (some ⟨seedToken, some ce⟩)) now = .unauthorized ∧
    meHandler seedExp (.parsed (some ⟨t, some ce⟩)) now = .unauthorized := by
  refine ⟨rfl, rfl, rfl, rfl, ?_, ?_, ?_⟩
  · unfold meHandler meHandlerWith
    dsimp only
    by_cases h1 : t = ""
    · rw [if_pos h1]
    · rw [if_neg h1]
  · exact me_seedToken_expired_aux seedExp ce now hexp
  · unfold meHandler meHandlerWith
    dsimp only
    by_cases h1 : t = ""
    · rw [if_pos h1]
    · rw [if_neg h1]
      rw [if_neg hce]
      have hdb : fakeDbWith (userData seedExp) t now = none :=
        fakeDb_unknown seedExp t now hid hun hem htok
      simp only [hdb]

/-- C10 witness: all seven cookie shapes at concrete values. -/
theorem c10_witness :
    meHandler 0 .malformed 0 = .serverError ∧
    meHandler 0 .absent 0 = .unauthorized ∧
    meHandler 0 (.parsed none) 0 = .unauthorized ∧
    meHandler 0 (.parsed (some ⟨"", some 0⟩)) 0 = .unauthorized ∧
    meHandler 0 (.parsed (some ⟨"nobody", none⟩)) 0 = .unauthorized ∧
    meHandler 0 (.parsed (some ⟨seedToken, some 0⟩)) 0 = .unauthorized ∧
    meHandler 0 (.parsed (some ⟨"nobody", some 0⟩)) 0 = .unauthorized :=
  c10_malformed_cookie_server_error 0 0 0 "nobody" (by decide) (by decide) (by decide)
    (by decide) (by decide) (by decide)

/-- C5 counterexample: after a validate call on the expired seeded token
answers 401, the server-side store still contains that token — no eviction
happened — so the claimed "subsequent validate fails with `TokenNotFound`
because the store no longer contains the token" is false: the subsequent
call fails only because the entry is still there and still expired. -/
theorem c5_counterexample :
    (meHandlerSt (userData 0) (.parsed (some ⟨seedToken, some 0⟩)) 1).2
        = .unauthorized ∧
      ((meHandlerSt (userData 0) (.parsed (some ⟨seedToken, some 0⟩)) 1).1.tokens.any
        (fun tk => tk.token == seedToken)) = true ∧
      (meHandlerSt (meHandlerSt (userData 0) (.parsed (some ⟨seedToken, some 0⟩)) 1).1
        (.parsed (some ⟨seedToken, some 0⟩)) 1).2 = .unauthorized := by
  decide

/-- C5 amended: a validate call on the expired seeded token answers 401 and
leaves the store unchanged (the handler performs no eviction), and a
subsequent validate with the same token answers the same 401 — the code has
no separate `TokenExpired`/`TokenNotFound` outcomes and never removes the
entry. -/
theorem c5_expired_no_eviction (seedExp ce now : Int) (h : seedExp ≤ now) :
    meHandlerSt (userData seedExp) (.parsed (some ⟨seedToken, some ce⟩)) now
        = (userData seedExp, .unauthorized) ∧
      meHandlerSt (meHandlerSt (userData seedExp) (.parsed (some ⟨seedToken, some ce⟩)) now).1
          (.parsed (some ⟨seedToken, some ce⟩)) now
        = (userData seedExp, .unauthorized) := by
  have h1 : meHandlerWith (userData seedExp) (.parsed (some ⟨seedToken, some ce⟩)) now
      = .unauthorized := me_seedToken_expired_aux seedExp ce now h
  unfold meHandlerSt
  rw [h1]
  exact ⟨rfl, rfl⟩

/-- C5 witness: the amended statement on concrete data. -/
theorem c5_witness :
    meHandlerSt (userData 0) (.parsed (some ⟨seedToken, some 0⟩)) 1
        = (userData 0, .unauthorized) ∧
      meHandlerSt (meHandlerSt (userData 0) (.parsed (some ⟨seedToken, some 0⟩)) 1).1
          (.parsed (some ⟨seedToken, some 0⟩)) 1
        = (userData 0, .unauthorized) :=
  c5_expired_no_eviction 0 0 1 (by decide)

/-- C9 counterexample: calling the logout endpoint revokes nothing — with the
seeded store, after a logout call a validate carrying the previously issued
(unexpired) seeded token still succeeds and returns the user, refuting
"validate on any token previously issued to that user fails". -/
theorem c9_counterexample :
    (logoutHandlerSt (userData 1)).1 = userData 1 ∧
      meHandlerWith (logoutHandlerSt (userData 1)).1
          (.parsed (some ⟨seedToken, some 1⟩)) 0
        = .ok (userToJson (sanitizeUser (userData 1))) := by
  decide

/-- C9 amended: the logout endpoint performs no server-side revocation: it
produces no response and leaves the store untouched, so every subsequent
validate call behaves exactly as if logout had never been called. -/
theorem c9_logout_is_noop (db : User) (cookie : CookieState) (now : Int) :
    (logoutHandlerSt db).2 = none ∧
      meHandlerWith (logoutHandlerSt db).1 cookie now = meHandlerWith db cookie now :=
  ⟨rfl, rfl⟩

/-- C8: refresh consumes its token.  For every store and every token `t`
bound to a live session `s`, refreshing with a fresh token `t2` (one no
session in the store carries) and a positive TTL succeeds with `t2`;
afterwards validating `t` fails with `TokenNotFound` and validating `t2`
succeeds with the same user.  (The repository has no refresh operation; the
Token Store and `refresh` are modelled from the spec, §4.2–4.3.) -/
theorem c8_refresh_consumes (store : TokenStore) (t t2 : String) (now ttl : Int)
    (s : Session) (hget : TokenStore.get store t = some s) (hlive : now < s.expiresAt)
    (hfresh : ∀ s' ∈ store, s'.token ≠ t2) (httl : 0 < ttl) :
    (specRefresh store t t2 now ttl).1 = .ok t2 ∧
      (specValidate (specRefresh store t t2 now ttl).2 t now).1
        = .error .tokenNotFound ∧
      (specValidate (specRefresh store t t2 now ttl).2 t2 now).1 = .ok s.userId := by
  have hsmem : s ∈ store := List.mem_of_find?_eq_some hget
  have hst : s.token = t := by
    have := List.find?_some hget
    simpa using this
  have ht2t : t2 ≠ t := fun he => hfresh s hsmem (hst.trans he.symm)
  have hnotexp : ¬ (s.expiresAt ≤ now) := by omega
  have hstore2 : (specRefresh store t t2 now ttl).2
      = TokenStore.delete store t ++ [⟨t2, s.userId, now, now + ttl⟩] := by
    unfold specRefresh
    simp only [hget]
    rw [if_neg hnotexp]
  have hget_del_t : TokenStore.get (TokenStore.delete store t) t = none := by
    unfold TokenStore.get TokenStore.delete
    rw [List.find?_eq_none]
    intro x hx
    have hx2 := List.mem_filter.mp hx
    simp only [decide_eq_true_eq] at hx2 ⊢
    exact hx2.2
  have hget_del_t2 : TokenStore.get (TokenStore.delete store t) t2 = none := by
    unfold TokenStore.get TokenStore.delete
    rw [List.find?_eq_none]
    intro x hx
    have hx2 := List.mem_filter.mp hx
    simp only [decide_eq_true_eq]
    exact hfresh x hx2.1
  have hget_new_t :
      TokenStore.get (TokenStore.delete store t ++ [⟨t2, s.userId, now, now + ttl⟩]) t
        = none := by
    unfold TokenStore.get at hget_del_t ⊢
    rw [List.find?_append, hget_del_t]
    simp [ht2t]
  have hget_new_t2 :
      TokenStore.get (TokenStore.delete store t ++ [⟨t2, s.userId, now, now + ttl⟩]) t2
        = some ⟨t2, s.userId, now, now + ttl⟩ := by
    unfold TokenStore.get at hget_del_t2 ⊢
    rw [List.find?_append, hget_del_t2]
    simp [List.find?]
  refine ⟨?_, ?_, ?_⟩
  · unfold specRefresh
    simp only [hget]
    rw [if_neg hnotexp]
  · rw [hstore2]
    unfold specValidate
    simp only [hget_new_t]
  · rw [hstore2]
    unfold specValidate
    simp only [hget_new_t2]
    rw [if_neg (show ¬ ((⟨t2, s.userId, now, now + ttl⟩ : Session).expiresAt ≤ now) by
      simp only []
      omega)]

/-- C8 witness: a one-session store, refreshed with a fresh token. -/
theorem c8_witness :
    (specRefresh [⟨"t1", "u1", 0, 10⟩] "t1" "t2" 0 5).1 = .ok "t2" ∧
      (specValidate (specRefresh [⟨"t1", "u1", 0, 10⟩] "t1" "t2" 0 5).2 "t1" 0).1
        = .error .tokenNotFound ∧
      (specValidate (specRefresh [⟨"t1", "u1", 0, 10⟩] "t1" "t2" 0 5).2 "t2" 0).1
        = .ok "u1" :=
  c8_refresh_consumes [⟨"t1", "u1", 0, 10⟩] "t1" "t2" 0 5 ⟨"t1", "u1", 0, 10⟩
    (by decide) (by decide) (by decide) (by decide)

